import Mathlib

/-!
Verification development for the qrrr repository (src/qrrr.py, src/ecc.py):
an animated-QR-code ("QRRR") generator.  The Python source is shallowly
embedded below: byte strings are `List Nat`, Python ints are `Nat`/`Int`
(all quantities here are non-negative unless noted), Python floats are
modelled as exact rationals `ℚ`, Python exceptions are `Except` errors,
and PIL images are records carrying the geometry and payload the spec
talks about (the raster contents themselves are out of scope).
-/

/-- Errors a run of the embedded code can raise, mirroring the Python
exceptions that the modelled code paths can produce. -/
inductive QrrrError where
  | zeroDivisionError
  | assertionError
  | indexError
  deriving DecidableEq, Repr

/-- Python `int(x)` for a rational: truncation toward zero. -/
def pyInt (q : ℚ) : Int :=
  if q < 0 then ⌈q⌉ else ⌊q⌋

/-- Python list indexing `l[i]` for a possibly negative index: a negative
index counts from the end (`l[i]` is `l[len(l) + i]`), and an index out of
range after that adjustment raises `IndexError` (here: `none`). -/
def pyIndex (l : List Nat) (i : Int) : Option Nat :=
  let j : Int := if i < 0 then i + l.length else i
  if 0 ≤ j then l.get? j.toNat else none

/-- Python slice `l[a:b]` for non-negative bounds: indices clip at the
list length, and an empty slice results when `b ≤ a`. -/
def pySlice (l : List Nat) (a b : Nat) : List Nat :=
  (l.drop a).take (b - a)

/-! ### src/ecc.py

The `qrcode` library's error-correction constants (external collaborator,
values fixed by that library): `ERROR_CORRECT_M = 0`, `ERROR_CORRECT_L = 1`,
`ERROR_CORRECT_H = 2`, `ERROR_CORRECT_Q = 3`. -/

def ERROR_CORRECT_M : Nat := 0
def ERROR_CORRECT_L : Nat := 1
def ERROR_CORRECT_H : Nat := 2
def ERROR_CORRECT_Q : Nat := 3

/-- Row `DENSITY[qrcode.ERROR_CORRECT_L]` from src/ecc.py. -/
def DENSITY_L : List Nat := [
    17,   32,   53,   78,  106,  134,  154,  192,  230,  271,
   321,  367,  425,  458,  520,  586,  644,  718,  792,  858,
   929, 1003, 1091, 1171, 1273, 1367, 1465, 1528, 1628, 1732,
  1840, 1952, 2068, 2188, 2303, 2431, 2563, 2699, 2809, 2953]

/-- Row `DENSITY[qrcode.ERROR_CORRECT_M]` from src/ecc.py. -/
def DENSITY_M : List Nat := [
    14,   26,   42,   62,   84,  106,  122,  152,  180,  213,
   251,  287,  331,  362,  412,  450,  504,  560,  624,  666,
   711,  779,  857,  911,  997, 1059, 1125, 1190, 1264, 1370,
  1452, 1538, 1628, 1722, 1809, 1911, 1989, 2099, 2213, 2331]

/-- Row `DENSITY[qrcode.ERROR_CORRECT_H]` from src/ecc.py. -/
def DENSITY_H : List Nat := [
     7,   14,   24,   34,   44,   58,   64,   84,   98,  119,
   137,  155,  177,  194,  220,  250,  280,  310,  338,  382,
   403,  439,  461,  511,  535,  593,  625,  658,  698,  742,
   790,  842,  898,  958,  983, 1051, 1093, 1139, 1219, 1273]

/-- Row `DENSITY[qrcode.ERROR_CORRECT_Q]` from src/ecc.py. -/
def DENSITY_Q : List Nat := [
    11,   20,   32,   46,   60,   74,   86,  108,  130,  151,
   177,  203,  241,  258,  292,  322,  364,  394,  442,  482,
   509,  565,  611,  661,  715,  751,  805,  868,  908,  982,
  1030, 1112, 1168, 1228, 1283, 1351, 1423, 1499, 1579, 1663]

/-- The `DENSITY` table from src/ecc.py, a list of four rows indexed by the
`qrcode` error-correction constants (index 0 = M, 1 = L, 2 = H, 3 = Q). -/
def DENSITY : List (List Nat) :=
  [DENSITY_M, DENSITY_L, DENSITY_H, DENSITY_Q]

/-- The recognized error-correction levels, in the order of src/ecc.py's
`ECC_MAP` (L, M, H, Q), as `qrcode` constants. -/
def ECC_LEVELS : List Nat :=
  [ERROR_CORRECT_L, ERROR_CORRECT_M, ERROR_CORRECT_H, ERROR_CORRECT_Q]

/-- The capacity lookup `DENSITY[ecc][version - 1]` performed at
`QrrrFrameFactory.__init__` (src/qrrr.py line 31), with Python list-index
semantics on `version - 1` (which may be negative). -/
def capacityLookup (ecc : Nat) (version : Int) : Option Nat :=
  match DENSITY.get? ecc with
  | none => none
  | some row => pyIndex row (version - 1)

/-! ### src/qrrr.py: data structures

A `QRCode` models the fields of the `qrcode.QRCode` object that
src/qrrr.py reads: `_version`, `error_correction`, `box_size`, `border`.
`Qrrr.__init__` constructs it with the library defaults `box_size = 10`,
`border = 4`. -/

structure QRCode where
  version : Nat
  error_correction : Nat
  box_size : Nat
  border : Nat
  deriving DecidableEq, Repr

/-- Modelled from the spec: the external `qrcode` renderer (an out-of-scope
collaborator) produces a square symbol image of side length
`box_size × (4·version + 2·border + 17)` raster units, carrying the full
payload it was given. Only the geometry and the payload are modelled. -/
structure Image where
  width : Nat
  height : Nat
  payload : List Nat
  deriving DecidableEq, Repr

/-- Modelled from the spec: `qr.make_image()` after `qr.add_data(data)` —
the external symbol encoder, producing a square image whose side is
`box_size × (4·version + 2·border + 17)` and which renders exactly `data`. -/
def make_image (qr : QRCode) (data : List Nat) : Image :=
  let side := qr.box_size * (4 * qr.version + 2 * qr.border + 17)
  { width := side, height := side, payload := data }

/-- The progress-bar image built by `QrrrFrameFactory._get_progressbar_image`:
overall raster size, the filled bar width `bar_width` in module ("box")
units, and the rectangle drawn on the white background (`none` when no
rectangle is drawn). -/
structure PBarImage where
  width : Nat
  height : Nat
  bar_width : Int
  rect : Option (Int × Int × Int × Int)
  deriving DecidableEq, Repr

/-- One composed QRRR frame, as built by
`QrrrFrameFactory.build_single_frame`: the symbol image pasted at (0,0),
the progress-bar image pasted beneath it, the composite canvas size, and
the progress value the frame was built with. -/
structure FrameImage where
  code : Image
  pbar : PBarImage
  width : Nat
  height : Nat
  progress : ℚ
  deriving DecidableEq, Repr

/-- Class `QrrrFrameFactory`: holds the base QR-code object and the derived
`chunk_size = DENSITY[qr.error_correction][qr._version - 1]`. -/
structure QrrrFrameFactory where
  qr : QRCode
  chunk_size : Nat
  deriving DecidableEq, Repr

/-- Constructor `QrrrFrameFactory.__init__` (src/qrrr.py lines 24-31): stores the QR
object and performs the capacity lookup, which can raise (here: `none`). -/
def QrrrFrameFactory.init (qr : QRCode) : Option QrrrFrameFactory :=
  (capacityLookup qr.error_correction (qr.version : Int)).map
    fun cs => { qr := qr, chunk_size := cs }

/-- Method `QrrrFrameFactory._get_progressbar_image` (src/qrrr.py lines 33-74).
All named quantities follow the source: `im_width` and `im_height` are in
module ("box") units, the drawn rectangle coordinates are in raster
units. `progress` (a Python float) is modelled as an exact rational. -/
def get_progressbar_image (qr : QRCode) (progress : ℚ) : PBarImage :=
  let im_width := 4 * qr.version + 2 * qr.border + 17
  let im_height := max 2 ((4 * qr.version) / 10) + qr.border
  let bar_width := pyInt (progress * ((im_width : ℚ) - 2 * (qr.border : ℚ)))
  let bar_height := im_height - qr.border
  let x0 : Int := (qr.box_size : Int) * qr.border
  let y0 : Int := 0
  let x1 : Int := (qr.box_size : Int) * bar_width + x0
  let y1 : Int := (qr.box_size : Int) * bar_height + y0
  { width := qr.box_size * im_width
    height := qr.box_size * im_height
    bar_width := bar_width
    rect := if 0 < bar_width then some (x0, y0, x1, y1) else none }

/-- Method `QrrrFrameFactory._get_qrcode_image` (src/qrrr.py lines 76-90):
`assert len(data) <= self.chunk_size`, then clear, refill and render the
QR object.  A failed assert raises `AssertionError`. -/
def QrrrFrameFactory.get_qrcode_image (fac : QrrrFrameFactory)
    (data : List Nat) : Except QrrrError Image :=
  if data.length ≤ fac.chunk_size then
    .ok (make_image fac.qr data)
  else
    .error .assertionError

/-- Method `QrrrFrameFactory.build_single_frame` (src/qrrr.py lines 92-111):
renders the symbol (which can fail on oversized data) and the progress
bar, then pastes the symbol at (0, 0) and the bar at (0, code.height) on
a white canvas of width `code.width` and height
`code.height + pbar.height`. -/
def QrrrFrameFactory.build_single_frame (fac : QrrrFrameFactory)
    (data : List Nat) (progress : ℚ) : Except QrrrError FrameImage :=
  match fac.get_qrcode_image data with
  | .error e => .error e
  | .ok code =>
    let pbar := get_progressbar_image fac.qr progress
    .ok { code := code, pbar := pbar, width := code.width,
          height := code.height + pbar.height, progress := progress }

/-- The body of the `for i in range(num_chunks)` loop of
`build_all_frames` (src/qrrr.py lines 126-129): take the slice
`data[chunk_size*i : chunk_size*(i+1)]`, compute
`progress = float(i / (num_chunks - 1))` — which raises
`ZeroDivisionError` when `num_chunks - 1 == 0` — and build the frame. -/
def loopBody (fac : QrrrFrameFactory) (data : List Nat)
    (num_chunks : Nat) (i : Nat) : Except QrrrError FrameImage :=
  if ((num_chunks : Int) - 1) = 0 then
    .error .zeroDivisionError
  else
    fac.build_single_frame
      (pySlice data (fac.chunk_size * i) (fac.chunk_size * (i + 1)))
      ((i : ℚ) / (((num_chunks : Int) - 1 : Int) : ℚ))

/-- The `frames` accumulator after the first `k` iterations of the
`build_all_frames` loop: iterations run in order `i = 0, 1, ...` and the
first raising iteration aborts the loop with its exception. -/
def buildLoop (fac : QrrrFrameFactory) (data : List Nat)
    (num_chunks : Nat) : Nat → Except QrrrError (List FrameImage)
  | 0 => .ok []
  | k + 1 =>
    match buildLoop fac data num_chunks k with
    | .error e => .error e
    | .ok frames =>
      match loopBody fac data num_chunks k with
      | .error e => .error e
      | .ok f => .ok (frames ++ [f])

/-- Method `QrrrFrameFactory.build_all_frames` (src/qrrr.py lines 113-131):
`num_chunks = (len(data) + chunk_size - 1) // chunk_size` (a Python `//`
by zero raises `ZeroDivisionError`), then the loop over all chunks. -/
def QrrrFrameFactory.build_all_frames (fac : QrrrFrameFactory)
    (data : List Nat) : Except QrrrError (List FrameImage) :=
  if fac.chunk_size = 0 then
    .error .zeroDivisionError
  else
    buildLoop fac data ((data.length + fac.chunk_size - 1) / fac.chunk_size)
      ((data.length + fac.chunk_size - 1) / fac.chunk_size)

/-- The animated-GIF artifact written by `Qrrr.build`: the ordered frames
(`qrrr[0]` plus `append_images=qrrr[1:]`), the per-frame duration and the
loop count (0 = loop forever). -/
structure Gif where
  frames : List FrameImage
  duration : Nat
  loop_count : Nat
  deriving DecidableEq, Repr

/-- Class `Qrrr` (src/qrrr.py lines 134-149): holds
`framelength = 1000 // fps` and the frame factory. -/
structure Qrrr where
  framelength : Nat
  factory : QrrrFrameFactory
  deriving DecidableEq, Repr

/-- Method `Qrrr.build` (src/qrrr.py lines 151-176) applied to the content of the
source file: build all frames, then save `qrrr[0]` with
`append_images = qrrr[1:]` — indexing `qrrr[0]` raises `IndexError` when
the frame list is empty, and then no artifact is produced. -/
def Qrrr.build (q : Qrrr) (content : List Nat) : Except QrrrError Gif :=
  match q.factory.build_all_frames content with
  | .error e => .error e
  | .ok frames =>
    match frames with
    | [] => .error .indexError
    | f :: rest =>
      .ok { frames := f :: rest, duration := q.framelength, loop_count := 0 }

/-- The frame that iteration `i` of the `build_all_frames` loop appends
when it does not raise: the symbol image for the slice
`data[chunk_size*i : chunk_size*(i+1)]` above the progress bar for
`i / (num_chunks - 1)`, on a canvas of the combined size. -/
def frameFor (fac : QrrrFrameFactory) (data : List Nat) (n i : Nat) :
    FrameImage :=
  { code := make_image fac.qr
      (pySlice data (fac.chunk_size * i) (fac.chunk_size * (i + 1)))
    pbar := get_progressbar_image fac.qr ((i : ℚ) / (((n : Int) - 1 : Int) : ℚ))
    width := (make_image fac.qr
      (pySlice data (fac.chunk_size * i) (fac.chunk_size * (i + 1)))).width
    height := (make_image fac.qr
      (pySlice data (fac.chunk_size * i) (fac.chunk_size * (i + 1)))).height
      + (get_progressbar_image fac.qr
          ((i : ℚ) / (((n : Int) - 1 : Int) : ℚ))).height
    progress := (i : ℚ) / (((n : Int) - 1 : Int) : ℚ) }

/-- A concrete configuration for witnesses: version 1, ecc level L, and
the `qrcode` library defaults `box_size = 10`, `border = 4` (what
`Qrrr.__init__(1, ERROR_CORRECT_L, fps)` constructs). -/
def qrV1L : QRCode :=
  { version := 1, error_correction := ERROR_CORRECT_L, box_size := 10,
    border := 4 }

/-- The frame factory for `qrV1L`; its chunk size is
`DENSITY[ERROR_CORRECT_L][0] = 17`. -/
def facV1L : QrrrFrameFactory := { qr := qrV1L, chunk_size := 17 }

/-- A concrete `Qrrr` object for witnesses: `fps = 5`, so
`framelength = 1000 // 5 = 200`. -/
def qrrrV1L : Qrrr := { framelength := 200, factory := facV1L }

/-! ### Helper lemmas -/

/-- Python `int()` agrees with the floor on non-negative rationals. -/
theorem pyInt_of_nonneg (q : ℚ) (h : 0 ≤ q) : pyInt q = ⌊q⌋ := by
  unfold pyInt
  rw [if_neg (not_lt.2 h)]

theorem chunk_width_sub (cs i : Nat) : cs * (i + 1) - cs * i = cs := by
  rw [Nat.mul_succ]
  omega

/-- A chunk slice is the next `chunk_size` elements after position
`chunk_size * i`. -/
theorem pySlice_chunk_eq (l : List Nat) (cs i : Nat) :
    pySlice l (cs * i) (cs * (i + 1)) = (l.drop (cs * i)).take cs := by
  unfold pySlice
  rw [chunk_width_sub]

theorem pySlice_chunk_length (l : List Nat) (cs i : Nat) :
    (pySlice l (cs * i) (cs * (i + 1))).length = min cs (l.length - cs * i) := by
  rw [pySlice_chunk_eq, List.length_take, List.length_drop]

theorem pySlice_chunk_length_le (l : List Nat) (cs i : Nat) :
    (pySlice l (cs * i) (cs * (i + 1))).length ≤ cs := by
  rw [pySlice_chunk_length]
  exact Nat.min_le_left _ _

/-- The computed `num_chunks` is large enough: the chunks cover all of the data. -/
theorem numChunks_mul_ge (len cs : Nat) (hcs : 0 < cs) :
    len ≤ cs * ((len + cs - 1) / cs) := by
  have h1 := Nat.div_add_mod (len + cs - 1) cs
  have h2 := Nat.mod_lt (len + cs - 1) hcs
  omega

/-- For non-empty data there is at least one chunk. -/
theorem numChunks_pos (len cs : Nat) (hcs : 0 < cs) (hlen : 0 < len) :
    0 < (len + cs - 1) / cs := by
  rcases Nat.eq_zero_or_pos ((len + cs - 1) / cs) with hq | hq
  · have h1 := Nat.div_add_mod (len + cs - 1) cs
    rw [hq, Nat.mul_zero] at h1
    have h2 := Nat.mod_lt (len + cs - 1) hcs
    omega
  · exact hq

/-- The computed `num_chunks` is not too large: all chunks but possibly the last are
full, so one fewer chunk cannot cover the data. -/
theorem numChunks_pred_mul_lt (len cs : Nat) (hcs : 0 < cs) (hlen : 0 < len) :
    cs * ((len + cs - 1) / cs - 1) < len := by
  obtain ⟨q, hq⟩ : ∃ q, (len + cs - 1) / cs = q + 1 :=
    ⟨(len + cs - 1) / cs - 1,
      (Nat.succ_pred_eq_of_pos (numChunks_pos len cs hcs hlen)).symm⟩
  have h1 := Nat.div_add_mod (len + cs - 1) cs
  rw [hq, Nat.mul_succ] at h1
  rw [hq, Nat.add_sub_cancel]
  omega

/-- Empty data yields zero chunks. -/
theorem numChunks_zero (cs : Nat) (hcs : 0 < cs) : (0 + cs - 1) / cs = 0 :=
  Nat.div_eq_of_lt (by omega)

/-- A natural number sandwiched by multiples of `cs` is the ceiling of the
corresponding rational division. -/
theorem ceil_div_eq_of_bounds (len cs m : Nat) (hcsq : (0 : ℚ) < (cs : ℚ))
    (hB : cs * m < len) (hA : len ≤ cs * (m + 1)) :
    ⌈(len : ℚ) / (cs : ℚ)⌉ = ((m + 1 : Nat) : Int) := by
  rw [Int.ceil_eq_iff]
  constructor
  · rw [lt_div_iff₀ hcsq]
    have hB' : (cs : ℚ) * (m : ℚ) < len := by exact_mod_cast hB
    push_cast
    linarith
  · rw [div_le_iff₀ hcsq]
    have hA' : (len : ℚ) ≤ (cs : ℚ) * ((m : ℚ) + 1) := by exact_mod_cast hA
    push_cast
    linarith

/-- The ceiling-division identity: the `(len + cs - 1) // cs` computed by
`build_all_frames` is `ceil(len / cs)`. -/
theorem numChunks_eq_ceil (len cs : Nat) (hcs : 0 < cs) :
    ⌈(len : ℚ) / (cs : ℚ)⌉ = (((len + cs - 1) / cs : Nat) : Int) := by
  have hcsq : (0 : ℚ) < (cs : ℚ) := by exact_mod_cast hcs
  rcases Nat.eq_zero_or_pos len with hlen | hlen
  · subst hlen
    rw [numChunks_zero cs hcs]
    simp
  · have hA := numChunks_mul_ge len cs hcs
    have hB := numChunks_pred_mul_lt len cs hcs hlen
    have hq := numChunks_pos len cs hcs hlen
    have hn1 : (len + cs - 1) / cs = ((len + cs - 1) / cs - 1) + 1 := by omega
    rw [hn1] at hA ⊢
    exact ceil_div_eq_of_bounds len cs _ hcsq hB hA

/-- A loop iteration with more than one chunk in total succeeds and
produces exactly the frame `frameFor` describes. -/
theorem loopBody_eq (fac : QrrrFrameFactory) (data : List Nat) (n i : Nat)
    (hn : ((n : Int) - 1) ≠ 0) :
    loopBody fac data n i = .ok (frameFor fac data n i) := by
  unfold loopBody
  rw [if_neg hn]
  unfold QrrrFrameFactory.build_single_frame QrrrFrameFactory.get_qrcode_image
  rw [if_pos (pySlice_chunk_length_le data fac.chunk_size i)]
  rfl

/-- If every iteration below `k` succeeds with the frame `g` describes,
the loop up to `k` returns exactly those frames in order. -/
theorem buildLoop_ok (fac : QrrrFrameFactory) (data : List Nat) (n : Nat)
    (g : Nat → FrameImage) :
    ∀ k, (∀ i, i < k → loopBody fac data n i = .ok (g i)) →
      buildLoop fac data n k = .ok ((List.range k).map g)
  | 0, _ => rfl
  | k + 1, h => by
    have ih := buildLoop_ok fac data n g k fun i hi => h i (Nat.lt_succ_of_lt hi)
    have hk := h k (Nat.lt_succ_self k)
    unfold buildLoop
    rw [ih, hk, List.range_succ, List.map_append]
    rfl

/-- With a positive chunk size and a chunk count other than one,
`build_all_frames` succeeds and returns the frames `frameFor` describes,
one per chunk index. -/
theorem build_all_frames_eq (fac : QrrrFrameFactory) (data : List Nat)
    (hcs : fac.chunk_size ≠ 0)
    (hn : (data.length + fac.chunk_size - 1) / fac.chunk_size ≠ 1) :
    fac.build_all_frames data =
      .ok ((List.range ((data.length + fac.chunk_size - 1) / fac.chunk_size)).map
        (frameFor fac data ((data.length + fac.chunk_size - 1) / fac.chunk_size))) := by
  unfold QrrrFrameFactory.build_all_frames
  rw [if_neg hcs]
  exact buildLoop_ok fac data _ _ _
    fun i _ => loopBody_eq fac data _ i (by omega)

/-- The concatenation of the first `k` chunk slices is the first
`chunk_size * k` bytes of the data. -/
theorem flatten_chunks (l : List Nat) (cs : Nat) :
    ∀ k, ((List.range k).map fun i => pySlice l (cs * i) (cs * (i + 1))).flatten
      = l.take (cs * k)
  | 0 => by simp
  | k + 1 => by
    rw [List.range_succ, List.map_append, List.flatten_append,
      flatten_chunks l cs k]
    simp only [List.map_cons, List.map_nil, List.flatten_cons,
      List.flatten_nil, List.append_nil]
    rw [pySlice_chunk_eq, Nat.mul_succ, List.take_add]

/-- No loop iteration ever raises the capacity assertion: the chunk it
slices always fits. -/
theorem loopBody_ne_assert (fac : QrrrFrameFactory) (data : List Nat)
    (n i : Nat) : loopBody fac data n i ≠ .error .assertionError := by
  unfold loopBody
  split
  · intro h
    exact absurd (Except.error.inj h) (by simp)
  · unfold QrrrFrameFactory.build_single_frame QrrrFrameFactory.get_qrcode_image
    rw [if_pos (pySlice_chunk_length_le data fac.chunk_size i)]
    intro h
    exact Except.noConfusion h

/-- The loop can only propagate errors its iterations raise, so it never
raises the capacity assertion either. -/
theorem buildLoop_ne_assert (fac : QrrrFrameFactory) (data : List Nat)
    (n : Nat) : ∀ k, buildLoop fac data n k ≠ .error .assertionError
  | 0 => fun h => Except.noConfusion h
  | k + 1 => by
    have ih := buildLoop_ne_assert fac data n k
    have hbody := loopBody_ne_assert fac data n k
    unfold buildLoop
    cases hb : buildLoop fac data n k with
    | error e =>
      intro h
      exact ih (hb.trans (congrArg Except.error (Except.error.inj h)))
    | ok frames =>
      cases hl : loopBody fac data n k with
      | error e =>
        intro h
        exact hbody (hl.trans (congrArg Except.error (Except.error.inj h)))
      | ok f =>
        intro h
        exact Except.noConfusion h

/-! ### Claims about chunking and progress -/

/-- Claim C2 (code bug): for data that fits in a single chunk
(`1 ≤ len(data) ≤ chunk_size`, so `num_chunks == 1`), `build_all_frames`
does not produce one frame with progress 1.0 as specified — the progress
expression `i / (num_chunks - 1)` is `0 / 0` and raises
`ZeroDivisionError`. -/
theorem build_all_frames_single_chunk_zero_division (fac : QrrrFrameFactory)
    (data : List Nat) (hcs : 0 < fac.chunk_size) (h1 : 1 ≤ data.length)
    (h2 : data.length ≤ fac.chunk_size) :
    fac.build_all_frames data = .error .zeroDivisionError := by
  have hn : (data.length + fac.chunk_size - 1) / fac.chunk_size = 1 := by
    refine Nat.div_eq_of_lt_le (by omega) (by omega)
  unfold QrrrFrameFactory.build_all_frames
  rw [if_neg (by omega), hn]
  rfl

/-- Witness for the single-chunk `ZeroDivisionError`: one byte of data at
version 1, ecc L (chunk size 17). -/
theorem build_all_frames_single_chunk_zero_division_witness :
    facV1L.build_all_frames [65] = .error .zeroDivisionError :=
  build_all_frames_single_chunk_zero_division facV1L [65] (by decide)
    (by decide) (by decide)

/-- Counterexample to claim C1 as stated: `[0]` is a byte string of
length 1 ≥ 1, yet `build_all_frames` produces no chunk list at all — it
raises `ZeroDivisionError` — so it does not split this data into
`ceil(1 / 17) = 1` chunk whose concatenation is the data. -/
theorem build_all_frames_single_chunk_no_output :
    facV1L.build_all_frames [0] = .error .zeroDivisionError := by
  rfl

/-- Claim C1 as amended: whenever `num_chunks ≥ 2` (for
`num_chunks == 1` the function instead raises `ZeroDivisionError`),
`build_all_frames` splits the data into
`num_chunks = ceil(len / chunk_size)` consecutive chunks; every chunk
except the last has length exactly `chunk_size`, the last has length
between 1 and `chunk_size`, and concatenating the chunks in order
reproduces the data byte for byte. -/
theorem build_all_frames_partitions (fac : QrrrFrameFactory)
    (data : List Nat) (hcs : 0 < fac.chunk_size)
    (hmulti : 1 < (data.length + fac.chunk_size - 1) / fac.chunk_size) :
    ∃ frames, fac.build_all_frames data = .ok frames ∧
      frames.length = (data.length + fac.chunk_size - 1) / fac.chunk_size ∧
      ⌈(data.length : ℚ) / (fac.chunk_size : ℚ)⌉ =
        (((data.length + fac.chunk_size - 1) / fac.chunk_size : Nat) : Int) ∧
      (∀ c ∈ (frames.map fun f => f.code.payload).dropLast,
        c.length = fac.chunk_size) ∧
      (∃ lastChunk,
        (frames.map fun f => f.code.payload).getLast? = some lastChunk ∧
        1 ≤ lastChunk.length ∧ lastChunk.length ≤ fac.chunk_size) ∧
      (frames.map fun f => f.code.payload).flatten = data := by
  have hlen : 0 < data.length := by
    rcases Nat.eq_zero_or_pos data.length with h0 | h0
    · rw [h0, numChunks_zero fac.chunk_size hcs] at hmulti
      omega
    · exact h0
  obtain ⟨m, hm⟩ : ∃ m,
      (data.length + fac.chunk_size - 1) / fac.chunk_size = m + 1 :=
    ⟨(data.length + fac.chunk_size - 1) / fac.chunk_size - 1, by omega⟩
  have hB := numChunks_pred_mul_lt data.length fac.chunk_size hcs hlen
  have hA := numChunks_mul_ge data.length fac.chunk_size hcs
  rw [hm, Nat.add_sub_cancel] at hB
  rw [hm, Nat.mul_succ] at hA
  have hmap : (((List.range
        ((data.length + fac.chunk_size - 1) / fac.chunk_size)).map
        (frameFor fac data
          ((data.length + fac.chunk_size - 1) / fac.chunk_size))).map
        fun f => f.code.payload) =
      (List.range ((data.length + fac.chunk_size - 1) / fac.chunk_size)).map
        fun i => pySlice data (fac.chunk_size * i) (fac.chunk_size * (i + 1)) := by
    rw [List.map_map]
    rfl
  refine ⟨_, build_all_frames_eq fac data (by omega) (by omega), ?_, ?_, ?_,
    ?_, ?_⟩
  · simp
  · exact numChunks_eq_ceil data.length fac.chunk_size hcs
  · rw [hmap, hm, List.range_succ, List.map_append]
    simp only [List.map_cons, List.map_nil]
    rw [List.dropLast_concat]
    intro c hc
    obtain ⟨i, hi, rfl⟩ := List.mem_map.1 hc
    have hi' : i < m := List.mem_range.1 hi
    have h1 : fac.chunk_size * (i + 1) ≤ fac.chunk_size * m :=
      Nat.mul_le_mul_left fac.chunk_size hi'
    rw [Nat.mul_succ] at h1
    rw [pySlice_chunk_length]
    exact Nat.min_eq_left (by omega)
  · rw [hmap, hm, List.range_succ, List.map_append]
    simp only [List.map_cons, List.map_nil]
    rw [List.getLast?_concat]
    refine ⟨pySlice data (fac.chunk_size * m) (fac.chunk_size * (m + 1)),
      rfl, ?_, ?_⟩ <;>
      · rw [pySlice_chunk_length, Nat.min_eq_right (by omega)]
        omega
  · rw [hmap, flatten_chunks data fac.chunk_size]
    exact List.take_of_length_le (by rw [hm, Nat.mul_succ]; omega)

/-- Witness for the amended partition claim: 18 bytes at chunk size 17
give two chunks that concatenate back to the data. -/
theorem build_all_frames_partitions_witness :
    ∃ frames, facV1L.build_all_frames (List.replicate 18 7) = .ok frames ∧
      (frames.map fun f => f.code.payload).flatten = List.replicate 18 7 := by
  obtain ⟨frames, h1, _, _, _, _, h6⟩ :=
    build_all_frames_partitions facV1L (List.replicate 18 7) (by decide)
      (by decide)
  exact ⟨frames, h1, h6⟩

/-- Claim C3: when `num_chunks > 1`, the progress passed for frame `i` is
`i / (num_chunks - 1)`; hence the first frame's progress is 0, the last
frame's progress is exactly 1, and progress is strictly increasing across
the sequence. -/
theorem build_all_frames_progress_sequence (fac : QrrrFrameFactory)
    (data : List Nat) (hcs : 0 < fac.chunk_size)
    (hmulti : 1 < (data.length + fac.chunk_size - 1) / fac.chunk_size) :
    ∃ frames, fac.build_all_frames data = .ok frames ∧
      (frames.map fun f => f.progress) =
        (List.range ((data.length + fac.chunk_size - 1) / fac.chunk_size)).map
          (fun (i : Nat) => (i : ℚ) /
            ((((data.length + fac.chunk_size - 1) / fac.chunk_size : Nat) : ℚ)
              - 1)) ∧
      (frames.map fun f => f.progress).head? = some 0 ∧
      (frames.map fun f => f.progress).getLast? = some 1 ∧
      (frames.map fun f => f.progress).Chain' (· < ·) := by
  obtain ⟨m, hm⟩ : ∃ m,
      (data.length + fac.chunk_size - 1) / fac.chunk_size = m + 1 :=
    ⟨(data.length + fac.chunk_size - 1) / fac.chunk_size - 1, by omega⟩
  have hm1 : 1 ≤ m := by omega
  have hprog : (((List.range
        ((data.length + fac.chunk_size - 1) / fac.chunk_size)).map
        (frameFor fac data
          ((data.length + fac.chunk_size - 1) / fac.chunk_size))).map
        fun f => f.progress) =
      (List.range ((data.length + fac.chunk_size - 1) / fac.chunk_size)).map
        (fun (i : Nat) => (i : ℚ) /
          ((((data.length + fac.chunk_size - 1) / fac.chunk_size : Nat) : ℚ)
            - 1)) := by
    rw [List.map_map]
    refine List.map_congr_left fun i _ => ?_
    show (i : ℚ) / ((((data.length + fac.chunk_size - 1) / fac.chunk_size
      : Nat) : Int) - 1 : Int) = _
    rw [Int.cast_sub, Int.cast_one, Int.cast_natCast]
  have hden : ((((data.length + fac.chunk_size - 1) / fac.chunk_size
      : Nat) : ℚ) - 1) = (m : ℚ) := by
    rw [hm]
    push_cast
    ring
  have hdpos : (0 : ℚ) <
      ((((data.length + fac.chunk_size - 1) / fac.chunk_size : Nat) : ℚ) - 1)
      := by
    rw [hden]
    exact_mod_cast hm1
  refine ⟨_, build_all_frames_eq fac data (by omega) (by omega), hprog,
    ?_, ?_, ?_⟩
  · rw [hprog, hm, List.range_succ_eq_map]
    simp only [List.map_cons, List.head?_cons, Nat.cast_zero, zero_div]
  · rw [hprog, hm, List.range_succ, List.map_append]
    simp only [List.map_cons, List.map_nil]
    rw [List.getLast?_concat]
    rw [← hm, hden, div_self (show (m : ℚ) ≠ 0 from Nat.cast_ne_zero.mpr (by omega))]
  · rw [hprog, List.chain'_map, hm, List.chain'_range_succ]
    intro i hi
    rw [← hm, div_lt_div_iff_of_pos_right hdpos]
    exact_mod_cast Nat.lt_succ_self i

/-- Witness for the progress-sequence claim: 35 bytes at chunk size 17
give three frames with first progress 0 and last progress 1. -/
theorem build_all_frames_progress_sequence_witness :
    ∃ frames, facV1L.build_all_frames (List.replicate 35 3) = .ok frames ∧
      (frames.map fun f => f.progress).head? = some 0 ∧
      (frames.map fun f => f.progress).getLast? = some 1 := by
  obtain ⟨frames, h1, _, h3, h4, _⟩ :=
    build_all_frames_progress_sequence facV1L (List.replicate 35 3)
      (by decide) (by decide)
  exact ⟨frames, h1, h3, h4⟩

/-- Claim C6: rendering a chunk fails (the `assert` raises) exactly when
the chunk exceeds `chunk_size`; a fitting chunk yields an image, and a
returned image always renders the full chunk — never a truncation. -/
theorem get_qrcode_image_capacity_check (fac : QrrrFrameFactory)
    (data : List Nat) :
    (data.length ≤ fac.chunk_size →
      fac.get_qrcode_image data = .ok (make_image fac.qr data)) ∧
    (fac.chunk_size < data.length →
      fac.get_qrcode_image data = .error .assertionError) ∧
    (∀ img, fac.get_qrcode_image data = .ok img → img.payload = data) := by
  unfold QrrrFrameFactory.get_qrcode_image
  refine ⟨fun h => by rw [if_pos h], fun h => by rw [if_neg (not_le.2 h)], ?_⟩
  intro img himg
  split at himg
  · injection himg with h
    rw [← h]
    rfl
  · exact Except.noConfusion himg

/-- Witness for the capacity check: at chunk size 17, an 18-byte chunk is
rejected and a 1-byte chunk renders. -/
theorem get_qrcode_image_capacity_check_witness :
    facV1L.get_qrcode_image (List.replicate 18 0) = .error .assertionError ∧
    facV1L.get_qrcode_image [65] = .ok (make_image qrV1L [65]) :=
  ⟨(get_qrcode_image_capacity_check facV1L (List.replicate 18 0)).2.1
      (by decide),
   (get_qrcode_image_capacity_check facV1L [65]).1 (by decide)⟩

/-- Claim C7: every chunk the `build_all_frames` loop slices fits in
`chunk_size`, so the defensive capacity assertion in the renderer is
unreachable from the chunking path — `build_all_frames` can never raise
`AssertionError`. -/
theorem chunks_never_exceed_capacity (fac : QrrrFrameFactory)
    (data : List Nat) :
    (∀ i : Nat, (pySlice data (fac.chunk_size * i)
      (fac.chunk_size * (i + 1))).length ≤ fac.chunk_size) ∧
    fac.build_all_frames data ≠ .error .assertionError := by
  refine ⟨fun i => pySlice_chunk_length_le data fac.chunk_size i, ?_⟩
  unfold QrrrFrameFactory.build_all_frames
  split
  · intro h
    exact absurd (Except.error.inj h) (by simp)
  · exact buildLoop_ne_assert fac data _ _

/-- The progress bar draws no rectangle exactly when the computed bar
width is not positive. -/
theorem progressbar_rect_none_iff (qr : QRCode) (p : ℚ) :
    (get_progressbar_image qr p).rect = none ↔
      (get_progressbar_image qr p).bar_width ≤ 0 := by
  rcases le_or_lt (get_progressbar_image qr p).bar_width 0 with h | h
  · have hrect : (get_progressbar_image qr p).rect = none := by
      show (if 0 < (get_progressbar_image qr p).bar_width then _ else none)
        = none
      rw [if_neg (not_lt.2 h)]
    simp [hrect, h]
  · have hrect : (get_progressbar_image qr p).rect =
        some ((qr.box_size : Int) * qr.border, 0,
          (qr.box_size : Int) * (get_progressbar_image qr p).bar_width +
            (qr.box_size : Int) * qr.border,
          (qr.box_size : Int) *
            ((max 2 ((4 * qr.version) / 10) + qr.border - qr.border : Nat)
              : Int) + 0) := by
      show (if 0 < (get_progressbar_image qr p).bar_width then _ else none)
        = _
      rw [if_pos h]
      rfl
    rw [hrect]
    simp
    omega

/-- The rectangle drawn for a positive bar width, with the coordinates
the source computes. -/
theorem progressbar_rect_eq (qr : QRCode) (p : ℚ)
    (h : 0 < (get_progressbar_image qr p).bar_width) :
    (get_progressbar_image qr p).rect =
      some ((qr.box_size : Int) * qr.border, 0,
        (qr.box_size : Int) * (get_progressbar_image qr p).bar_width +
          (qr.box_size : Int) * qr.border,
        (qr.box_size : Int) *
          ((max 2 ((4 * qr.version) / 10) + qr.border - qr.border : Nat)
            : Int) + 0) := by
  show (if 0 < (get_progressbar_image qr p).bar_width then _ else none) = _
  rw [if_pos h]
  rfl

/-- Claim C8: for progress in [0, 1], the filled bar width equals
`floor(progress × available_width)` where `available_width` is the bar's
total width minus the left and right padding (all in module units); no
rectangle is drawn exactly when that width is zero — in particular at
progress 0 — and a drawn rectangle spans horizontally exactly
`box_size × bar_width` raster units. -/
theorem progressbar_filled_width (qr : QRCode) (p : ℚ) (h0 : 0 ≤ p)
    (h1 : p ≤ 1) :
    (get_progressbar_image qr p).bar_width =
      ⌊p * (((4 * qr.version + 2 * qr.border + 17) - 2 * qr.border : Nat)
        : ℚ)⌋ ∧
    ((get_progressbar_image qr p).rect = none ↔
      (get_progressbar_image qr p).bar_width = 0) ∧
    (p = 0 → (get_progressbar_image qr p).rect = none) ∧
    (∀ x0 y0 x1 y1,
      (get_progressbar_image qr p).rect = some (x0, y0, x1, y1) →
      x1 - x0 = (qr.box_size : Int) * (get_progressbar_image qr p).bar_width)
    := by
  have haw : ((4 * qr.version + 2 * qr.border + 17 - 2 * qr.border : Nat)
      : ℚ) = ((4 * qr.version + 2 * qr.border + 17 : Nat) : ℚ)
      - 2 * (qr.border : ℚ) := by
    rw [Nat.cast_sub (by omega)]
    push_cast
    ring
  have hbw : (get_progressbar_image qr p).bar_width =
      ⌊p * (((4 * qr.version + 2 * qr.border + 17) - 2 * qr.border : Nat)
        : ℚ)⌋ := by
    show pyInt (p * (((4 * qr.version + 2 * qr.border + 17 : Nat) : ℚ)
      - 2 * (qr.border : ℚ))) = _
    rw [← haw]
    exact pyInt_of_nonneg _ (mul_nonneg h0 (Nat.cast_nonneg _))
  have hnn : 0 ≤ (get_progressbar_image qr p).bar_width := by
    rw [hbw]
    exact Int.floor_nonneg.2 (mul_nonneg h0 (Nat.cast_nonneg _))
  refine ⟨hbw, ?_, ?_, ?_⟩
  · rw [progressbar_rect_none_iff]
    omega
  · intro hp
    subst hp
    rw [progressbar_rect_none_iff]
    rw [hbw]
    simp
  · intro x0 y0 x1 y1 hsome
    have hpos : 0 < (get_progressbar_image qr p).bar_width := by
      by_contra hn
      rw [(progressbar_rect_none_iff qr p).2 (by omega)] at hsome
      exact Option.noConfusion hsome
    rw [progressbar_rect_eq qr p hpos] at hsome
    simp only [Option.some.injEq, Prod.mk.injEq] at hsome
    obtain ⟨hx0, _, hx1, _⟩ := hsome
    rw [← hx0, ← hx1]
    ring

/-- Witness for the filled-width claim at version 1, ecc L, progress 1/2:
the available width is 21 modules and the filled width is
`floor(10.5) = 10`. -/
theorem progressbar_filled_width_witness :
    (get_progressbar_image qrV1L (1 / 2)).bar_width =
      ⌊(1 / 2 : ℚ) * (((4 * qrV1L.version + 2 * qrV1L.border + 17)
        - 2 * qrV1L.border : Nat) : ℚ)⌋ ∧
    ((get_progressbar_image qrV1L (1 / 2)).rect = none ↔
      (get_progressbar_image qrV1L (1 / 2)).bar_width = 0) :=
  ⟨(progressbar_filled_width qrV1L (1 / 2) (by norm_num) (by norm_num)).1,
   (progressbar_filled_width qrV1L (1 / 2) (by norm_num) (by norm_num)).2.1⟩

/-- Claim C9: the progress-bar image is `box_size × (4·version + 2·border
+ 17)` wide — the symbol image's width — and
`box_size × (max(2, (4·version) // 10) + border)` tall, and the composed
frame is exactly as wide as the symbol image and as tall as the symbol
image plus the progress bar. -/
theorem frame_geometry (fac : QrrrFrameFactory) (data : List Nat) (p : ℚ)
    (hfit : data.length ≤ fac.chunk_size) :
    ∃ f, fac.build_single_frame data p = .ok f ∧
      f.pbar.width =
        fac.qr.box_size * (4 * fac.qr.version + 2 * fac.qr.border + 17) ∧
      f.pbar.width = f.code.width ∧
      f.pbar.height =
        fac.qr.box_size * (max 2 ((4 * fac.qr.version) / 10) + fac.qr.border)
        ∧
      f.width = f.code.width ∧
      f.height = f.code.height + f.pbar.height := by
  have hbuild : fac.build_single_frame data p = .ok
      { code := make_image fac.qr data
        pbar := get_progressbar_image fac.qr p
        width := (make_image fac.qr data).width
        height := (make_image fac.qr data).height +
          (get_progressbar_image fac.qr p).height
        progress := p } := by
    unfold QrrrFrameFactory.build_single_frame QrrrFrameFactory.get_qrcode_image
    rw [if_pos hfit]
  exact ⟨_, hbuild, rfl, rfl, rfl, rfl, rfl⟩

/-- Witness for the frame geometry at version 1, ecc L, box size 10,
border 4: bar and symbol are 290 pixels wide, the bar is 60 pixels tall,
and the frame stacks symbol and bar. -/
theorem frame_geometry_witness :
    ∃ f, facV1L.build_single_frame [65] (1 / 3) = .ok f ∧
      f.pbar.width = 290 ∧ f.pbar.width = f.code.width ∧
      f.pbar.height = 60 ∧ f.width = f.code.width ∧
      f.height = f.code.height + f.pbar.height := by
  obtain ⟨f, h1, h2, h3, h4, h5, h6⟩ :=
    frame_geometry facV1L [65] (1 / 3) (by decide)
  exact ⟨f, h1, by simpa using h2, h3, by simpa using h4, h5, h6⟩

/-- Claim C10: on empty input, `num_chunks` is 0 and `build_all_frames`
returns the empty list, so `Qrrr.build` on an (existing but) empty source
file raises `IndexError` at `qrrr[0]` and produces no artifact. -/
theorem empty_input_no_frames (q : Qrrr) (hcs : 0 < q.factory.chunk_size) :
    (([] : List Nat).length + q.factory.chunk_size - 1) /
      q.factory.chunk_size = 0 ∧
    q.factory.build_all_frames [] = .ok [] ∧
    q.build [] = .error .indexError := by
  have hn : (([] : List Nat).length + q.factory.chunk_size - 1) /
      q.factory.chunk_size = 0 := numChunks_zero q.factory.chunk_size hcs
  have hframes : q.factory.build_all_frames [] = .ok [] := by
    unfold QrrrFrameFactory.build_all_frames
    rw [if_neg (by omega), hn]
    rfl
  refine ⟨hn, hframes, ?_⟩
  unfold Qrrr.build
  rw [hframes]

/-- Witness for the empty-input behaviour with the concrete version-1
ecc-L configuration. -/
theorem empty_input_no_frames_witness :
    (([] : List Nat).length + qrrrV1L.factory.chunk_size - 1) /
      qrrrV1L.factory.chunk_size = 0 ∧
    qrrrV1L.factory.build_all_frames [] = .ok [] ∧
    qrrrV1L.build [] = .error .indexError :=
  empty_input_no_frames qrrrV1L (by decide)

/-- Sanity: the concrete witness factory is exactly what
`QrrrFrameFactory.__init__` builds for version 1, ecc level L. -/
theorem facV1L_init : QrrrFrameFactory.init qrV1L = some facV1L := by
  decide

/-! ### Claims about the capacity table -/

/-- Claim C5: every entry of the DENSITY table is positive, every row has
length 40 (so V_max = 40) and is monotonically non-decreasing in version,
and for a fixed version the capacities satisfy H ≤ Q ≤ M ≤ L. -/
theorem density_table_invariants :
    (∀ row ∈ DENSITY, row.length = 40 ∧
      row.Pairwise (· ≤ ·) ∧ ∀ c ∈ row, 0 < c) ∧
    List.Forall₂ (· ≤ ·) DENSITY_H DENSITY_Q ∧
    List.Forall₂ (· ≤ ·) DENSITY_Q DENSITY_M ∧
    List.Forall₂ (· ≤ ·) DENSITY_M DENSITY_L := by
  decide

/-- Python indexing returns `none` (raises `IndexError`) exactly when the
index, after the negative-index adjustment, is outside `[0, len)`. -/
theorem pyIndex_eq_none_of_out_of_range (l : List Nat) (i : Int)
    (h : (l.length : Int) ≤ i ∨ i < -(l.length : Int)) :
    pyIndex l i = none := by
  unfold pyIndex
  rcases h with h | h
  · have hi : ¬ i < 0 := by
      have : (0 : Int) ≤ l.length := Int.ofNat_nonneg _
      omega
    simp only [hi, if_false]
    have h0 : (0 : Int) ≤ i := by
      have : (0 : Int) ≤ l.length := Int.ofNat_nonneg _
      omega
    simp only [h0, if_true]
    apply List.get?_eq_none.2
    omega
  · have hi : i < 0 := by
      have : (0 : Int) ≤ l.length := Int.ofNat_nonneg _
      omega
    simp only [hi, if_true]
    have h0 : ¬ (0 : Int) ≤ i + l.length := by omega
    simp only [h0, if_false]

/-- Counterexample to claim C4 as stated: `version = 0` is outside
`[1, 40]`, yet the lookup `DENSITY[ERROR_CORRECT_L][0 - 1]` silently
returns the last entry of the L row (Python negative indexing), instead
of failing. -/
theorem capacity_lookup_version_zero_silent :
    capacityLookup ERROR_CORRECT_L 0 = some 2953 := by
  decide

/-- Claim C4 as amended: for every recognized ecc level the capacity
lookup fails (IndexError) whenever `version > 40` or `version < -39`;
but for `version` in `[-39, 0]` Python's negative indexing makes it
silently return an entry from the end of the row. -/
theorem capacity_lookup_out_of_range_amended (ecc : Nat)
    (hecc : ecc ∈ ECC_LEVELS) :
    (∀ version : Int, 40 < version ∨ version < -39 →
      capacityLookup ecc version = none) ∧
    (∀ k : Fin 40, (capacityLookup ecc (-(k : Int))).isSome = true) := by
  constructor
  · intro version hv
    fin_cases hecc <;>
      · refine pyIndex_eq_none_of_out_of_range _ _ ?_
        simp only [List.length]
        omega
  · fin_cases hecc <;> decide

/-- Witness for the amended C4 theorem at a concrete out-of-range input:
version 41 with ecc level L fails. -/
theorem capacity_lookup_out_of_range_witness :
    capacityLookup ERROR_CORRECT_L 41 = none :=
  (capacity_lookup_out_of_range_amended ERROR_CORRECT_L (by decide)).1
    41 (by decide)


/-- Witness for the capacity-safety claim: at chunk size 17, the first
chunk of an 18-byte input fits, and the build never hits the assertion. -/
theorem chunks_never_exceed_capacity_witness :
    (pySlice (List.replicate 18 7) (facV1L.chunk_size * 0)
      (facV1L.chunk_size * 1)).length ≤ facV1L.chunk_size ∧
    facV1L.build_all_frames (List.replicate 18 7) ≠ .error .assertionError :=
  ⟨(chunks_never_exceed_capacity facV1L (List.replicate 18 7)).1 0,
   (chunks_never_exceed_capacity facV1L (List.replicate 18 7)).2⟩
